import Mathlib

/-!
# Verification of the cbtools-autobench node-provisioning workflow

A shallow embedding of `nodes/node.go` from `cbtools-autobench`.  The remote
command channel (the `ssh.Client` collaborator) is modelled as an oracle: a
record of results for the package-management primitives together with a
function from command strings to results.  Every operation of `node.go` is
translated into a pure Lean function that returns the ordered trace of remote
actions it issued together with its error result, so that ordering,
short-circuiting and error-wrapping properties can be stated and proved.
-/

namespace Autobench

/-- A Go `error` value, represented by its message (`err.Error()`). -/
structure GoErr where
  msg : String
  deriving DecidableEq, Repr

/-- `errors.Wrap(err, msg)` / `fmt.Errorf("msg: %w", err)`: the resulting
error's message is the stage description followed by the cause. -/
def wrap (m : String) (e : GoErr) : GoErr :=
  ⟨m ++ ": " ++ e.msg⟩

/-- Go's `unicode.IsSpace` restricted to the Latin-1 range (device listings
are ASCII, so the wider Unicode space categories never arise here). -/
def goIsSpace (c : Char) : Bool :=
  c = ' ' || c = '\t' || c = '\n' || c = '\x0b' || c = '\x0c' || c = '\r' ||
    c = '\u0085' || c = ' '

/-- Helper for `strings.Fields`: split a character list around runs of white
space, accumulating the (reversed) current field. -/
def goFieldsAux : List Char → List Char → List (List Char)
  | [], [] => []
  | [], cur => [cur.reverse]
  | c :: rest, cur =>
    if goIsSpace c then
      match cur with
      | [] => goFieldsAux rest []
      | _ => cur.reverse :: goFieldsAux rest []
    else goFieldsAux rest (c :: cur)

/-- Go `strings.Fields(line)`: the white-space separated fields of a line;
empty fields cannot occur. -/
def goFields (line : String) : List String :=
  (goFieldsAux line.data []).map List.asString

/-- Helper for `strings.Split(s, "\n")`. -/
def splitNlAux : List Char → List Char → List String
  | [], cur => [cur.reverse.asString]
  | c :: rest, cur =>
    if c = '\n' then cur.reverse.asString :: splitNlAux rest []
    else splitNlAux rest (c :: cur)

/-- Go `strings.Split(s, "\n")`: the lines of `s` (the separator is a single
newline, so this never drops text). -/
def goSplitLines (s : String) : List String :=
  splitNlAux s.data []

/-- The loop body of `ExtractLastVolumeName`: walk the lines in order keeping
the NAME field of the most recent line whose third field is `disk`. -/
def lastDiskNameLoop : List String → String → String
  | [], acc => acc
  | line :: rest, acc =>
    lastDiskNameLoop rest
      (match goFields line with
       | name :: _ :: typ :: _ => if typ = "disk" then name else acc
       | _ => acc)

/-- `ExtractLastVolumeName` (node.go:327-342): extract the NAME field of the
last `lsblk` output line whose TYPE field is `disk`; error if there is none. -/
def ExtractLastVolumeName (lsblkOutput : String) : Except String String :=
  let lastVolumeName := lastDiskNameLoop (goSplitLines lsblkOutput) ""
  if lastVolumeName = "" then .error "no disk volume found in lsblk output"
  else .ok lastVolumeName

/-- `value.NodeBlueprint` (external `value` package): the per-node provisioning
parameters used by `node.go` — host address, optional data path, optional
index path (empty string means unset, as in Go). -/
structure NodeBlueprint where
  host : String
  dataPath : String
  indexPath : String
  deriving DecidableEq, Repr

/-- A remote action issued through the `ssh.Client` channel, recorded in
order.  `exec` carries the exact command string passed to `ExecuteCommand`
(`value.NewCommand` is `fmt.Sprintf`, modelled by string concatenation). -/
inductive Event where
  | installPackages
  | uninstallPackages
  | removeDirectory (path : String)
  | secureUpload (localPath remotePath : String)
  | installPackageAt (path : String)
  | removeFile (path : String)
  | sleep (seconds : Nat)
  | exec (cmd : String)
  deriving DecidableEq, Repr

/-- The remote command channel (`ssh.Client`), an external collaborator,
modelled as an oracle: the outcome of each package-management primitive and a
function giving the outcome of `ExecuteCommand` per command string.  `none`
means the Go call returned a nil error. -/
structure Client where
  installPackages : Option GoErr
  uninstallPackages : Option GoErr
  removeDirectory : Option GoErr
  secureUpload : Option GoErr
  installPackageAt : Option GoErr
  removeFile : Option GoErr
  exec : String → Except GoErr String

/-- Modelled from the spec: `value.CBInstallDirectory`, the server's fixed
install directory purged during uninstall.  The `value` package is not under
`src/`; the spec only says the install directory is removed, so the constant
stands for that fixed path and no claim depends on its exact value. -/
def CBInstallDirectory : String := "/opt/couchbase"

/-- Go `filepath.Base` (unix): strip trailing slashes, then keep everything
after the last remaining slash; `""` gives `"."` and an all-slash path gives
`"/"`. -/
def filepathBase (path : String) : String :=
  if path = "" then "."
  else
    let l := (path.data.reverse.dropWhile (· = '/')).reverse
    let l := (l.reverse.takeWhile (· ≠ '/')).reverse
    if l = [] then "/" else l.asString

/-- The remote staging path of `installCB`:
`filepath.Join("/home/ec2-user", filepath.Base(localPath))` for the package
paths that occur here (a non-trivial base name). -/
def remoteStagingPath (localPath : String) : String :=
  "/home/ec2-user/" ++ filepathBase localPath

/-- `errors.Is(err, fmt.Errorf("File already exists"))` as written in
`installCB` (node.go:112): the target is a freshly allocated `fmt.Errorf`
value, `errors.Is` compares it by identity against the chain of `err`, and a
fresh value can equal no pre-existing error, so the test is identically
false (it is also only reached when `err` is nil). -/
def errorsIsFreshAlreadyExists (_e : Option GoErr) : Bool :=
  false

/-- `installDeps` (node.go:75-79): install the platform dependency packages;
the channel error is returned unwrapped. -/
def installDeps (c : Client) : List Event × Option GoErr :=
  ([Event.installPackages], c.installPackages)

/-- `uninstallCB` (node.go:82-98): uninstall the `couchbase-server` package,
then purge its install directory, wrapping each failure. -/
def uninstallCB (c : Client) : List Event × Option GoErr :=
  match c.uninstallPackages with
  | some e =>
    ([Event.uninstallPackages], some (wrap "failed to uninstall 'couchbase-server'" e))
  | none =>
    match c.removeDirectory with
    | some e =>
      ([Event.uninstallPackages, Event.removeDirectory CBInstallDirectory],
        some (wrap ("failed to cleanup install directory at '" ++ CBInstallDirectory ++ "'") e))
    | none =>
      ([Event.uninstallPackages, Event.removeDirectory CBInstallDirectory], none)

/-- `installCB` (node.go:103-132): upload the package archive, then install
it, then remove the uploaded archive.  The `switch` on the upload error tests
`err != nil` first, so every upload failure — including "File already
exists" — takes that case; the `errors.Is` case is unreachable. -/
def installCB (c : Client) (localPath : String) : List Event × Option GoErr :=
  let remotePath := remoteStagingPath localPath
  match c.secureUpload with
  | some e =>
    ([Event.secureUpload localPath remotePath],
      some (wrap "failed to upload package archive" e))
  | none =>
    if errorsIsFreshAlreadyExists c.secureUpload then
      ([Event.secureUpload localPath remotePath], none)
    else
      match c.installPackageAt with
      | some e =>
        ([Event.secureUpload localPath remotePath, Event.installPackageAt remotePath],
          some (wrap "failed to install 'couchbase-server'" e))
      | none =>
        match c.removeFile with
        | some e =>
          ([Event.secureUpload localPath remotePath, Event.installPackageAt remotePath,
              Event.removeFile remotePath],
            some (wrap "failed to remove package archive" e))
        | none =>
          ([Event.secureUpload localPath remotePath, Event.installPackageAt remotePath,
              Event.removeFile remotePath], none)

/-- `giveCBPermissions` (node.go:315-324): chown the mounted data volume to
the service user. -/
def giveCBPermissions (c : Client) : List Event × Option GoErr :=
  match c.exec "sudo chown -R couchbase:couchbase /mnt" with
  | .error e =>
    ([Event.exec "sudo chown -R couchbase:couchbase /mnt"],
      some (wrap "failed to change permissions on /mnt" e))
  | .ok _ =>
    ([Event.exec "sudo chown -R couchbase:couchbase /mnt"], none)

/-- `provision` (node.go:47-72): dependencies, uninstall, upload-and-install,
fixed 30-second settle delay, then chown of the data volume; the first
failure aborts with its stage wrap. -/
def provision (c : Client) (packagePath : String) : List Event × Option GoErr :=
  match installDeps c with
  | (t1, some e) => (t1, some (wrap "failed to install dependencies" e))
  | (t1, none) =>
    match uninstallCB c with
    | (t2, some e) => (t1 ++ t2, some (wrap "failed to uninstall Couchbase Server" e))
    | (t2, none) =>
      match installCB c packagePath with
      | (t3, some e) =>
        (t1 ++ t2 ++ t3, some (wrap "failed to install Couchbase Server" e))
      | (t3, none) =>
        let t4 := [Event.sleep 30]
        match giveCBPermissions c with
        | (t5, some e) =>
          (t1 ++ t2 ++ t3 ++ t4 ++ t5,
            some (wrap "failed to give Couchbase Server permissions" e))
        | (t5, none) => (t1 ++ t2 ++ t3 ++ t4 ++ t5, none)

/-- `createDataPath` (node.go:135-153): no-op when the blueprint data path is
empty; otherwise `mkdir -p` then a recursive chown, wrapping each failure. -/
def createDataPath (bp : NodeBlueprint) (c : Client) : List Event × Option GoErr :=
  if bp.dataPath = "" then ([], none)
  else
    let c1 := "mkdir -p " ++ bp.dataPath
    match c.exec c1 with
    | .error e => ([Event.exec c1], some (wrap "failed to create remote data directory" e))
    | .ok _ =>
      let c2 := "chown -R couchbase:couchbase " ++ bp.dataPath
      match c.exec c2 with
      | .error e =>
        ([Event.exec c1, Event.exec c2], some (wrap "failed to chown remote data directory" e))
      | .ok _ => ([Event.exec c1, Event.exec c2], none)

/-- `createIndexPath` (node.go:155-173): the same two-step sequence for the
blueprint index path. -/
def createIndexPath (bp : NodeBlueprint) (c : Client) : List Event × Option GoErr :=
  if bp.indexPath = "" then ([], none)
  else
    let c1 := "mkdir -p " ++ bp.indexPath
    match c.exec c1 with
    | .error e => ([Event.exec c1], some (wrap "failed to create remote index directory" e))
    | .ok _ =>
      let c2 := "chown -R couchbase:couchbase " ++ bp.indexPath
      match c.exec c2 with
      | .error e =>
        ([Event.exec c1, Event.exec c2], some (wrap "failed to chown remote index directory" e))
      | .ok _ => ([Event.exec c1, Event.exec c2], none)

/-- The node-initialization command string built by `initializeCB`
(node.go:185-192): the fixed base command with the default administrator
credential, plus the conditionally appended data-path and index-path flags. -/
def initializeCBCommand (bp : NodeBlueprint) : String :=
  let init := "couchbase-cli node-init -c localhost:8091 -u Administrator -p asdasd"
  let init :=
    if bp.dataPath ≠ "" then init ++ (" --node-init-data-path " ++ bp.dataPath) else init
  if bp.indexPath ≠ "" then init ++ (" --node-init-index-path " ++ bp.indexPath) else init

/-- `initializeCB` (node.go:176-197): execute the node-initialization
command; the channel error is returned unwrapped. -/
def initializeCB (bp : NodeBlueprint) (c : Client) : List Event × Option GoErr :=
  match c.exec (initializeCBCommand bp) with
  | .error e => ([Event.exec (initializeCBCommand bp)], some e)
  | .ok _ => ([Event.exec (initializeCBCommand bp)], none)

/-- `checkAndPartitionEBS` (node.go:249-311): list block devices, select the
last disk-typed volume, check its presence, probe for its primary partition,
and when the probe fails partition, format, mount at `/mnt` and chmod 777;
the trace records each command string passed to `ExecuteCommand` in order. -/
def checkAndPartitionEBS (exec : String → Except GoErr String) :
    List String × Option GoErr :=
  let c1 := "lsblk -o NAME,SIZE,TYPE,MOUNTPOINT"
  match exec c1 with
  | .error e => ([c1], some ⟨"failed to check for all volumes: " ++ e.msg⟩)
  | .ok allVolumes =>
    match ExtractLastVolumeName allVolumes with
    | .error m => ([c1], some ⟨"failed to extract last volume name: " ++ m⟩)
    | .ok volumeName =>
      let c2 := "lsblk | grep " ++ volumeName
      match exec c2 with
      | .error e => ([c1, c2], some ⟨"failed to check for EBS volume: " ++ e.msg⟩)
      | .ok _ =>
        let c3 := "lsblk /dev/" ++ volumeName ++ " | grep /dev/" ++ volumeName ++ "p1"
        match exec c3 with
        | .ok _ => ([c1, c2, c3], none)
        | .error _ =>
          let c4 := "echo ',,,;' | sfdisk /dev/" ++ volumeName
          match exec c4 with
          | .error e =>
            ([c1, c2, c3, c4], some ⟨"failed to partition EBS volume: " ++ e.msg⟩)
          | .ok _ =>
            let c5 := "mkfs.xfs /dev/" ++ volumeName ++ "p1"
            match exec c5 with
            | .error e =>
              ([c1, c2, c3, c4, c5],
                some ⟨"failed to make mkfs file structure: " ++ e.msg⟩)
            | .ok _ =>
              let c6 := "mount /dev/" ++ volumeName ++ "p1 /mnt"
              match exec c6 with
              | .error e =>
                ([c1, c2, c3, c4, c5, c6],
                  some ⟨"failed to mount /mnt on EBS volume: " ++ e.msg⟩)
              | .ok _ =>
                let c7 := "chmod 777 /mnt"
                match exec c7 with
                | .error e =>
                  ([c1, c2, c3, c4, c5, c6, c7],
                    some ⟨"failed to change permissions on /mnt: " ++ e.msg⟩)
                | .ok _ => ([c1, c2, c3, c4, c5, c6, c7], none)

/-- The result of an operation that may either return to its caller (with a
nil or non-nil error) or terminate the whole process via `log.Fatalf`. -/
inductive Outcome (α : Type) where
  | ok : α → Outcome α
  | err : GoErr → Outcome α
  | fatal : String → Outcome α
  deriving DecidableEq, Repr

/-- Helper for `strings.Index(s, pat)` followed by `s[index:]`: the suffix of
the character list starting at the first occurrence of `pat`, or `none` when
`pat` does not occur. -/
def dropUntilSubstrAux (pat : List Char) : List Char → Option (List Char)
  | [] => if pat = [] then some [] else none
  | c :: rest =>
    if pat.isPrefixOf (c :: rest) then some (c :: rest)
    else dropUntilSubstrAux pat rest

/-- `strings.Index(s, pat)` combined with the slice `s[index:]` used in
`loginAsRoot`: the suffix of `s` from the first occurrence of `pat` on. -/
def dropUntilSubstr (s pat : String) : Option String :=
  (dropUntilSubstrAux pat.data s.data).map List.asString

/-- `loginAsRoot` (node.go:210-246): become root, read the root
authorized-keys file, keep only the content from the first `ssh-rsa` on,
write it back and restart the SSH daemon; every failure calls `log.Fatalf`,
which terminates the process (`Outcome.fatal`), and the final `return err`
returns the nil error of the last succeeding command. -/
def loginAsRoot (exec : String → Except GoErr String) : Outcome Unit :=
  match exec "sudo -s" with
  | .error e => .fatal ("failed to become root: " ++ e.msg)
  | .ok _ =>
    match exec "sudo cat /root/.ssh/authorized_keys" with
    | .error e => .fatal ("failed to read authorized_keys: " ++ e.msg)
    | .ok output =>
      match dropUntilSubstr output "ssh-rsa" with
      | none => .fatal "ssh-rsa not found in authorized_keys"
      | some newContent =>
        match exec ("echo '" ++ newContent ++ "' | sudo tee /root/.ssh/authorized_keys") with
        | .error e => .fatal ("failed to write to authorized_keys: " ++ e.msg)
        | .ok _ =>
          match exec "sudo systemctl restart sshd.service || sudo systemctl restart ssh.service" with
          | .error e => .fatal ("failed to restart SSH service: " ++ e.msg)
          | .ok _ => .ok ()

/-- A line counts as a disk line when it has at least three white-space
separated fields and the third one is `disk`. -/
def isDiskLine (line : String) : Bool :=
  match goFields line with
  | _ :: _ :: typ :: _ => typ = "disk"
  | _ => false

/-- The NAME (first) field of a line, or `""` for a blank line. -/
def fieldsHead (line : String) : String :=
  (goFields line).headD ""

end Autobench

namespace Autobench

theorem lastDiskNameLoop_of_not_any (lines : List String) (acc : String)
    (h : lines.any isDiskLine = false) : lastDiskNameLoop lines acc = acc := by
  induction lines generalizing acc with
  | nil => rfl
  | cons line rest ih =>
    simp only [List.any_cons, Bool.or_eq_false_iff] at h
    have hline : isDiskLine line = false := h.1
    unfold lastDiskNameLoop
    unfold isDiskLine at hline
    match hfs : goFields line with
    | [] => simp [hfs, ih _ h.2]
    | [a] => simp [hfs, ih _ h.2]
    | [a, b] => simp [hfs, ih _ h.2]
    | a :: b :: typ :: t =>
      rw [hfs] at hline
      simp only [hfs]
      rw [if_neg (by simpa using hline)]
      exact ih _ h.2

theorem lastDiskNameLoop_of_any (lines : List String) (acc : String)
    (h : lines.any isDiskLine = true) :
    lastDiskNameLoop lines acc = fieldsHead ((lines.filter isDiskLine).getLastD "") := by
  induction lines generalizing acc with
  | nil => simp at h
  | cons line rest ih =>
    by_cases hrest : rest.any isDiskLine = true
    · -- the answer is decided by the rest of the list
      have hfilter : rest.filter isDiskLine ≠ [] := by
        intro hnil
        rw [List.any_eq_true] at hrest
        obtain ⟨x, hx, hdx⟩ := hrest
        have : x ∈ rest.filter isDiskLine := List.mem_filter.mpr ⟨hx, hdx⟩
        simp [hnil] at this
      unfold lastDiskNameLoop
      rw [ih _ hrest]
      by_cases hline : isDiskLine line = true
      · obtain ⟨x, hx⟩ := Option.isSome_iff_exists.mp (List.getLast?_isSome.mpr hfilter)
        rw [List.filter_cons_of_pos hline, List.getLastD_cons,
          List.getLastD_eq_getLast?, List.getLastD_eq_getLast?, hx]
        simp
      · rw [List.filter_cons_of_neg (by simpa using hline)]
    · -- the head of the list must be the (only remaining) disk line
      have hline : isDiskLine line = true := by
        simp only [List.any_cons, Bool.or_eq_true] at h
        rcases h with h | h
        · exact h
        · exact absurd h hrest
      have hrest' : rest.any isDiskLine = false := by
        simpa using hrest
      have hfilter : rest.filter isDiskLine = [] := by
        rw [List.filter_eq_nil_iff]
        intro x hx
        by_contra hxd
        exact hrest (List.any_eq_true.mpr ⟨x, hx, by simpa using hxd⟩)
      rw [List.filter_cons_of_pos hline, hfilter]
      unfold lastDiskNameLoop
      unfold isDiskLine at hline
      match hfs : goFields line with
      | [] => rw [hfs] at hline; simp at hline
      | [a] => rw [hfs] at hline; simp at hline
      | [a, b] => rw [hfs] at hline; simp at hline
      | a :: b :: typ :: t =>
        rw [hfs] at hline
        simp only [decide_eq_true_eq] at hline
        simp only [hfs, hline, if_true, eq_self_iff_true]
        rw [lastDiskNameLoop_of_not_any rest a hrest']
        simp [fieldsHead, hfs]

theorem goFieldsAux_ne_nil (l : List Char) :
    ∀ cur x, x ∈ goFieldsAux l cur → x ≠ [] := by
  induction l with
  | nil =>
    intro cur x hx
    cases cur with
    | nil => simp [goFieldsAux] at hx
    | cons a t =>
      simp only [goFieldsAux, List.mem_singleton] at hx
      subst hx
      simp
  | cons c rest ih =>
    intro cur x hx
    unfold goFieldsAux at hx
    by_cases hsp : goIsSpace c = true
    · rw [if_pos hsp] at hx
      cases cur with
      | nil => exact ih [] x hx
      | cons a t =>
        rcases List.mem_cons.mp hx with hx | hx
        · subst hx; simp
        · exact ih [] x hx
    · rw [if_neg hsp] at hx
      exact ih (c :: cur) x hx

theorem mem_goFields_ne_empty (line : String) (x : String)
    (hx : x ∈ goFields line) : x ≠ "" := by
  unfold goFields at hx
  obtain ⟨l, hl, rfl⟩ := List.mem_map.mp hx
  intro hcontra
  apply goFieldsAux_ne_nil line.data [] l hl
  simpa [List.asString] using congrArg String.data hcontra

theorem fieldsHead_ne_empty (line : String) (h : isDiskLine line = true) :
    fieldsHead line ≠ "" := by
  unfold isDiskLine at h
  unfold fieldsHead
  match hfs : goFields line with
  | [] => rw [hfs] at h; simp at h
  | [a] => rw [hfs] at h; simp at h
  | [a, b] => rw [hfs] at h; simp at h
  | name :: b :: typ :: t =>
    simp only [List.headD_cons]
    exact mem_goFields_ne_empty line name (by rw [hfs]; exact List.mem_cons_self _ _)

theorem getLastD_filter_isDiskLine (lines : List String)
    (h : lines.any isDiskLine = true) :
    isDiskLine ((lines.filter isDiskLine).getLastD "") = true := by
  have hne : lines.filter isDiskLine ≠ [] := by
    obtain ⟨x, hx, hdx⟩ := List.any_eq_true.mp h
    intro hnil
    have : x ∈ lines.filter isDiskLine := List.mem_filter.mpr ⟨hx, hdx⟩
    simp [hnil] at this
  obtain ⟨x, hx⟩ := Option.isSome_iff_exists.mp (List.getLast?_isSome.mpr hne)
  rw [List.getLastD_eq_getLast?, hx]
  exact (List.mem_filter.mp (List.mem_of_mem_getLast? hx)).2

/-- C2: for every device-listing text containing at least one line with three
or more white-space-delimited fields whose third (TYPE) field is `disk`,
`ExtractLastVolumeName` returns the first (NAME) field of the last such line
in input order, regardless of the other TYPE values interleaved.  The witness
instantiates this at the spec's concrete scenario A, where the result is
`nvme1n1`. -/
theorem ExtractLastVolumeName_returns_last_disk_name (out : String)
    (h : (goSplitLines out).any isDiskLine = true) :
    ExtractLastVolumeName out =
      .ok (fieldsHead (((goSplitLines out).filter isDiskLine).getLastD "")) := by
  unfold ExtractLastVolumeName
  rw [lastDiskNameLoop_of_any _ _ h,
    if_neg (fieldsHead_ne_empty _ (getLastD_filter_isDiskLine _ h))]

theorem ExtractLastVolumeName_returns_last_disk_name_witness :
    ExtractLastVolumeName "nvme0n1 8G disk \nnvme0n1p1 8G part /\nnvme1n1 100G disk " =
      .ok "nvme1n1" := by
  have h := ExtractLastVolumeName_returns_last_disk_name
    "nvme0n1 8G disk \nnvme0n1p1 8G part /\nnvme1n1 100G disk " (by decide)
  rw [h]
  exact congrArg Except.ok (by decide)

/-- C3: for every device-listing text in which no line has a third
white-space-delimited field equal to `disk` (empty or malformed lines being
skipped), `ExtractLastVolumeName` returns the distinct "not found" error and
no volume name. -/
theorem ExtractLastVolumeName_no_disk_error (out : String)
    (h : (goSplitLines out).any isDiskLine = false) :
    ExtractLastVolumeName out = .error "no disk volume found in lsblk output" := by
  unfold ExtractLastVolumeName
  rw [lastDiskNameLoop_of_not_any _ _ h, if_pos rfl]

theorem ExtractLastVolumeName_no_disk_error_witness :
    ExtractLastVolumeName "nvme0n1p1 8G part /\n\nloop0 4K loop" =
      .error "no disk volume found in lsblk output" :=
  ExtractLastVolumeName_no_disk_error "nvme0n1p1 8G part /\n\nloop0 4K loop" (by decide)

/-- A client whose `SecureUpload` fails with "File already exists" and whose
other primitives all succeed. -/
def clientUploadExists : Client :=
  { installPackages := none, uninstallPackages := none, removeDirectory := none,
    secureUpload := some ⟨"File already exists"⟩, installPackageAt := none,
    removeFile := none, exec := fun _ => .ok "" }

/-- C1: evaluating `installCB` where the upload fails because the target file
already exists.  The claim (and the spec) say this is treated as success, but
the `switch` in node.go:109-115 tests `err != nil` before the
`errors.Is(err, fmt.Errorf("File already exists"))` case, so the run fails
with the wrapped "failed to upload package archive" error; the already-exists
case is unreachable dead code. -/
theorem installCB_upload_already_exists_returns_error :
    installCB clientUploadExists "couchbase-server.rpm" =
      ([Event.secureUpload "couchbase-server.rpm" "/home/ec2-user/couchbase-server.rpm"],
        some ⟨"failed to upload package archive: File already exists"⟩) := by
  rfl

/-- C9: after a successful upload and install, `installCB` always issues the
removal of the uploaded archive at the remote staging path, and a failure of
that removal fails the installation step and hence the whole provisioning
run. -/
theorem installCB_always_removes_archive (c : Client) (pkg : String) (e : GoErr)
    (h1 : c.secureUpload = none) (h2 : c.installPackageAt = none) :
    (installCB c pkg).1 =
      [Event.secureUpload pkg (remoteStagingPath pkg),
        Event.installPackageAt (remoteStagingPath pkg),
        Event.removeFile (remoteStagingPath pkg)] ∧
    (c.removeFile = some e →
      (installCB c pkg).2 = some (wrap "failed to remove package archive" e) ∧
      (c.installPackages = none → c.uninstallPackages = none →
        c.removeDirectory = none →
        (provision c pkg).2 =
          some (wrap "failed to install Couchbase Server"
            (wrap "failed to remove package archive" e)))) := by
  refine ⟨?_, fun hr => ⟨?_, fun h3 h4 h5 => ?_⟩⟩
  · cases hr : c.removeFile <;>
      simp [installCB, h1, h2, hr, errorsIsFreshAlreadyExists]
  · simp [installCB, h1, h2, hr, errorsIsFreshAlreadyExists]
  · simp [provision, installDeps, uninstallCB, installCB, giveCBPermissions,
      h1, h2, h3, h4, h5, hr, errorsIsFreshAlreadyExists]

/-- A client whose primitives all succeed except `RemoveFile`. -/
def clientRemoveFails : Client :=
  { installPackages := none, uninstallPackages := none, removeDirectory := none,
    secureUpload := none, installPackageAt := none,
    removeFile := some ⟨"exit status 1"⟩, exec := fun _ => .ok "" }

theorem installCB_always_removes_archive_witness :
    (installCB clientRemoveFails "couchbase-server.rpm").2 =
      some ⟨"failed to remove package archive: exit status 1"⟩ := by
  have h := installCB_always_removes_archive clientRemoveFails "couchbase-server.rpm"
    ⟨"exit status 1"⟩ rfl rfl
  simpa [wrap] using (h.2 rfl).1

/-- C5: `provision` performs, in this fixed order, dependency installation,
uninstall of the server with removal of its install directory,
upload-and-install of the package, the fixed 30-second settle delay, and the
chown of the mounted data volume; the first failing step aborts with its
stage wrap, no step is retried (each action appears at most once in the
trace), and when every step succeeds `provision` returns the full trace with
no error. -/
theorem provision_fixed_sequence (c : Client) (pkg : String) (e : GoErr) (s : String) :
    (c.installPackages = some e →
      provision c pkg =
        ([Event.installPackages], some (wrap "failed to install dependencies" e))) ∧
    (c.installPackages = none → c.uninstallPackages = some e →
      provision c pkg =
        ([Event.installPackages, Event.uninstallPackages],
          some (wrap "failed to uninstall Couchbase Server"
            (wrap "failed to uninstall 'couchbase-server'" e)))) ∧
    (c.installPackages = none → c.uninstallPackages = none →
      c.removeDirectory = some e →
      provision c pkg =
        ([Event.installPackages, Event.uninstallPackages,
            Event.removeDirectory CBInstallDirectory],
          some (wrap "failed to uninstall Couchbase Server"
            (wrap ("failed to cleanup install directory at '" ++ CBInstallDirectory ++ "'")
              e)))) ∧
    (c.installPackages = none → c.uninstallPackages = none → c.removeDirectory = none →
      c.secureUpload = some e →
      provision c pkg =
        ([Event.installPackages, Event.uninstallPackages,
            Event.removeDirectory CBInstallDirectory,
            Event.secureUpload pkg (remoteStagingPath pkg)],
          some (wrap "failed to install Couchbase Server"
            (wrap "failed to upload package archive" e)))) ∧
    (c.installPackages = none → c.uninstallPackages = none → c.removeDirectory = none →
      c.secureUpload = none → c.installPackageAt = some e →
      provision c pkg =
        ([Event.installPackages, Event.uninstallPackages,
            Event.removeDirectory CBInstallDirectory,
            Event.secureUpload pkg (remoteStagingPath pkg),
            Event.installPackageAt (remoteStagingPath pkg)],
          some (wrap "failed to install Couchbase Server"
            (wrap "failed to install 'couchbase-server'" e)))) ∧
    (c.installPackages = none → c.uninstallPackages = none → c.removeDirectory = none →
      c.secureUpload = none → c.installPackageAt = none → c.removeFile = some e →
      provision c pkg =
        ([Event.installPackages, Event.uninstallPackages,
            Event.removeDirectory CBInstallDirectory,
            Event.secureUpload pkg (remoteStagingPath pkg),
            Event.installPackageAt (remoteStagingPath pkg),
            Event.removeFile (remoteStagingPath pkg)],
          some (wrap "failed to install Couchbase Server"
            (wrap "failed to remove package archive" e)))) ∧
    (c.installPackages = none → c.uninstallPackages = none → c.removeDirectory = none →
      c.secureUpload = none → c.installPackageAt = none → c.removeFile = none →
      c.exec "sudo chown -R couchbase:couchbase /mnt" = .error e →
      provision c pkg =
        ([Event.installPackages, Event.uninstallPackages,
            Event.removeDirectory CBInstallDirectory,
            Event.secureUpload pkg (remoteStagingPath pkg),
            Event.installPackageAt (remoteStagingPath pkg),
            Event.removeFile (remoteStagingPath pkg),
            Event.sleep 30, Event.exec "sudo chown -R couchbase:couchbase /mnt"],
          some (wrap "failed to give Couchbase Server permissions"
            (wrap "failed to change permissions on /mnt" e)))) ∧
    (c.installPackages = none → c.uninstallPackages = none → c.removeDirectory = none →
      c.secureUpload = none → c.installPackageAt = none → c.removeFile = none →
      c.exec "sudo chown -R couchbase:couchbase /mnt" = .ok s →
      provision c pkg =
        ([Event.installPackages, Event.uninstallPackages,
            Event.removeDirectory CBInstallDirectory,
            Event.secureUpload pkg (remoteStagingPath pkg),
            Event.installPackageAt (remoteStagingPath pkg),
            Event.removeFile (remoteStagingPath pkg),
            Event.sleep 30, Event.exec "sudo chown -R couchbase:couchbase /mnt"],
          none)) := by
  refine ⟨?_, ?_, ?_, ?_, ?_, ?_, ?_, ?_⟩
  · intro h1
    simp [provision, installDeps, h1]
  · intro h1 h2
    simp [provision, installDeps, uninstallCB, h1, h2]
  · intro h1 h2 h3
    simp [provision, installDeps, uninstallCB, h1, h2, h3]
  · intro h1 h2 h3 h4
    simp [provision, installDeps, uninstallCB, installCB, h1, h2, h3, h4,
      errorsIsFreshAlreadyExists]
  · intro h1 h2 h3 h4 h5
    simp [provision, installDeps, uninstallCB, installCB, h1, h2, h3, h4, h5,
      errorsIsFreshAlreadyExists]
  · intro h1 h2 h3 h4 h5 h6
    simp [provision, installDeps, uninstallCB, installCB, h1, h2, h3, h4, h5, h6,
      errorsIsFreshAlreadyExists]
  · intro h1 h2 h3 h4 h5 h6 h7
    simp [provision, installDeps, uninstallCB, installCB, giveCBPermissions,
      h1, h2, h3, h4, h5, h6, h7, errorsIsFreshAlreadyExists]
  · intro h1 h2 h3 h4 h5 h6 h7
    simp [provision, installDeps, uninstallCB, installCB, giveCBPermissions,
      h1, h2, h3, h4, h5, h6, h7, errorsIsFreshAlreadyExists]

/-- C6: each path-configuration operation returns success with no remote
command exactly when its blueprint field is empty; when the field is
non-empty it issues a recursive `mkdir` followed by a chown of the path to
the service user, failing with a wrapped error when either command fails. -/
theorem create_paths_noop_iff_empty (bp : NodeBlueprint) (c : Client)
    (e : GoErr) (s s2 : String) :
    (bp.dataPath = "" → createDataPath bp c = ([], none)) ∧
    (bp.dataPath ≠ "" → c.exec ("mkdir -p " ++ bp.dataPath) = .error e →
      createDataPath bp c =
        ([Event.exec ("mkdir -p " ++ bp.dataPath)],
          some (wrap "failed to create remote data directory" e))) ∧
    (bp.dataPath ≠ "" → c.exec ("mkdir -p " ++ bp.dataPath) = .ok s →
      c.exec ("chown -R couchbase:couchbase " ++ bp.dataPath) = .error e →
      createDataPath bp c =
        ([Event.exec ("mkdir -p " ++ bp.dataPath),
            Event.exec ("chown -R couchbase:couchbase " ++ bp.dataPath)],
          some (wrap "failed to chown remote data directory" e))) ∧
    (bp.dataPath ≠ "" → c.exec ("mkdir -p " ++ bp.dataPath) = .ok s →
      c.exec ("chown -R couchbase:couchbase " ++ bp.dataPath) = .ok s2 →
      createDataPath bp c =
        ([Event.exec ("mkdir -p " ++ bp.dataPath),
            Event.exec ("chown -R couchbase:couchbase " ++ bp.dataPath)], none)) ∧
    (bp.indexPath = "" → createIndexPath bp c = ([], none)) ∧
    (bp.indexPath ≠ "" → c.exec ("mkdir -p " ++ bp.indexPath) = .error e →
      createIndexPath bp c =
        ([Event.exec ("mkdir -p " ++ bp.indexPath)],
          some (wrap "failed to create remote index directory" e))) ∧
    (bp.indexPath ≠ "" → c.exec ("mkdir -p " ++ bp.indexPath) = .ok s →
      c.exec ("chown -R couchbase:couchbase " ++ bp.indexPath) = .error e →
      createIndexPath bp c =
        ([Event.exec ("mkdir -p " ++ bp.indexPath),
            Event.exec ("chown -R couchbase:couchbase " ++ bp.indexPath)],
          some (wrap "failed to chown remote index directory" e))) ∧
    (bp.indexPath ≠ "" → c.exec ("mkdir -p " ++ bp.indexPath) = .ok s →
      c.exec ("chown -R couchbase:couchbase " ++ bp.indexPath) = .ok s2 →
      createIndexPath bp c =
        ([Event.exec ("mkdir -p " ++ bp.indexPath),
            Event.exec ("chown -R couchbase:couchbase " ++ bp.indexPath)], none)) := by
  refine ⟨?_, ?_, ?_, ?_, ?_, ?_, ?_, ?_⟩
  · intro h1
    simp [createDataPath, h1]
  · intro h1 h2
    simp [createDataPath, h1, h2]
  · intro h1 h2 h3
    simp [createDataPath, h1, h2, h3]
  · intro h1 h2 h3
    simp [createDataPath, h1, h2, h3]
  · intro h1
    simp [createIndexPath, h1]
  · intro h1 h2
    simp [createIndexPath, h1, h2]
  · intro h1 h2 h3
    simp [createIndexPath, h1, h2, h3]
  · intro h1 h2 h3
    simp [createIndexPath, h1, h2, h3]

/-- C7: the node-initialization command is the fixed base command against the
local admin endpoint with the default administrator credential, with the
data-path flag appended exactly when the blueprint data path is non-empty and
the index-path flag appended exactly when the index path is non-empty; with
data path `/data` and index path `/index` the produced command contains both
`--node-init-data-path /data` and `--node-init-index-path /index`. -/
theorem initializeCB_command_flags (bp : NodeBlueprint) :
    (bp.dataPath = "" → bp.indexPath = "" →
      initializeCBCommand bp =
        "couchbase-cli node-init -c localhost:8091 -u Administrator -p asdasd") ∧
    (bp.dataPath ≠ "" → bp.indexPath = "" →
      initializeCBCommand bp =
        "couchbase-cli node-init -c localhost:8091 -u Administrator -p asdasd" ++
          (" --node-init-data-path " ++ bp.dataPath)) ∧
    (bp.dataPath = "" → bp.indexPath ≠ "" →
      initializeCBCommand bp =
        "couchbase-cli node-init -c localhost:8091 -u Administrator -p asdasd" ++
          (" --node-init-index-path " ++ bp.indexPath)) ∧
    (bp.dataPath ≠ "" → bp.indexPath ≠ "" →
      initializeCBCommand bp =
        "couchbase-cli node-init -c localhost:8091 -u Administrator -p asdasd" ++
          (" --node-init-data-path " ++ bp.dataPath) ++
          (" --node-init-index-path " ++ bp.indexPath)) ∧
    (" --node-init-data-path /data").data <:+:
      (initializeCBCommand ⟨"host", "/data", "/index"⟩).data ∧
    (" --node-init-index-path /index").data <:+:
      (initializeCBCommand ⟨"host", "/data", "/index"⟩).data := by
  refine ⟨?_, ?_, ?_, ?_, ?_, ?_⟩
  · intro h1 h2
    simp [initializeCBCommand, h1, h2]
  · intro h1 h2
    simp [initializeCBCommand, h1, h2]
  · intro h1 h2
    simp [initializeCBCommand, h1, h2]
  · intro h1 h2
    simp [initializeCBCommand, h1, h2]
  · exact ⟨("couchbase-cli node-init -c localhost:8091 -u Administrator -p asdasd").data,
      (" --node-init-index-path /index").data, by decide⟩
  · exact ⟨("couchbase-cli node-init -c localhost:8091 -u Administrator -p asdasd" ++
        " --node-init-data-path /data").data, [], by decide⟩

/-- C8: every failure in the root bootstrap — becoming root, reading the
authorized-keys file, not finding the `ssh-rsa` prefix, rewriting the file,
or restarting the SSH daemon — terminates the whole process (`Outcome.fatal`)
rather than returning an error to the caller, and only when every step
succeeds does `loginAsRoot` return success. -/
theorem loginAsRoot_fatal_on_failure (exec : String → Except GoErr String)
    (e : GoErr) (o nc s1 s2 s3 : String) :
    (∀ e2 : GoErr, loginAsRoot exec ≠ .err e2) ∧
    (exec "sudo -s" = .error e →
      loginAsRoot exec = .fatal ("failed to become root: " ++ e.msg)) ∧
    (exec "sudo -s" = .ok s1 →
      exec "sudo cat /root/.ssh/authorized_keys" = .error e →
      loginAsRoot exec = .fatal ("failed to read authorized_keys: " ++ e.msg)) ∧
    (exec "sudo -s" = .ok s1 →
      exec "sudo cat /root/.ssh/authorized_keys" = .ok o →
      dropUntilSubstr o "ssh-rsa" = none →
      loginAsRoot exec = .fatal "ssh-rsa not found in authorized_keys") ∧
    (exec "sudo -s" = .ok s1 →
      exec "sudo cat /root/.ssh/authorized_keys" = .ok o →
      dropUntilSubstr o "ssh-rsa" = some nc →
      exec ("echo '" ++ nc ++ "' | sudo tee /root/.ssh/authorized_keys") = .error e →
      loginAsRoot exec = .fatal ("failed to write to authorized_keys: " ++ e.msg)) ∧
    (exec "sudo -s" = .ok s1 →
      exec "sudo cat /root/.ssh/authorized_keys" = .ok o →
      dropUntilSubstr o "ssh-rsa" = some nc →
      exec ("echo '" ++ nc ++ "' | sudo tee /root/.ssh/authorized_keys") = .ok s2 →
      exec "sudo systemctl restart sshd.service || sudo systemctl restart ssh.service" =
        .error e →
      loginAsRoot exec = .fatal ("failed to restart SSH service: " ++ e.msg)) ∧
    (exec "sudo -s" = .ok s1 →
      exec "sudo cat /root/.ssh/authorized_keys" = .ok o →
      dropUntilSubstr o "ssh-rsa" = some nc →
      exec ("echo '" ++ nc ++ "' | sudo tee /root/.ssh/authorized_keys") = .ok s2 →
      exec "sudo systemctl restart sshd.service || sudo systemctl restart ssh.service" =
        .ok s3 →
      loginAsRoot exec = .ok ()) := by
  refine ⟨?_, ?_, ?_, ?_, ?_, ?_, ?_⟩
  · intro e2
    unfold loginAsRoot
    cases h1 : exec "sudo -s" with
    | error e1 => simp
    | ok a =>
      cases h2 : exec "sudo cat /root/.ssh/authorized_keys" with
      | error e1 => simp
      | ok o1 =>
        cases h3 : dropUntilSubstr o1 "ssh-rsa" with
        | none => simp [h3]
        | some nc1 =>
          cases h4 : exec ("echo '" ++ nc1 ++ "' | sudo tee /root/.ssh/authorized_keys") with
          | error e1 => simp [h3, h4]
          | ok b =>
            cases h5 : exec
                "sudo systemctl restart sshd.service || sudo systemctl restart ssh.service" with
            | error e1 => simp [h3, h4, h5]
            | ok d => simp [h3, h4, h5]
  · intro h1
    simp [loginAsRoot, h1]
  · intro h1 h2
    simp [loginAsRoot, h1, h2]
  · intro h1 h2 h3
    simp [loginAsRoot, h1, h2, h3]
  · intro h1 h2 h3 h4
    simp [loginAsRoot, h1, h2, h3, h4]
  · intro h1 h2 h3 h4 h5
    simp [loginAsRoot, h1, h2, h3, h4, h5]
  · intro h1 h2 h3 h4 h5
    simp [loginAsRoot, h1, h2, h3, h4, h5]

/-- C4: once the device listing, volume selection and volume-existence check
have succeeded, a successful partition probe ends the operation with no
further remote command and success, while a failed probe is followed, in
order, by the whole-disk partition command, the `mkfs.xfs` format, the mount
at the fixed mount point `/mnt`, and the world-read/write/execute chmod, the
failure of any of which aborts with its wrapped error. -/
theorem checkAndPartitionEBS_probe_short_circuit
    (exec : String → Except GoErr String) (out out2 volumeName : String)
    (e3 e4 e5 e6 e7 : GoErr) (s3 s4 s5 s6 s7 : String)
    (h1 : exec "lsblk -o NAME,SIZE,TYPE,MOUNTPOINT" = .ok out)
    (h2 : ExtractLastVolumeName out = .ok volumeName)
    (h3 : exec ("lsblk | grep " ++ volumeName) = .ok out2) :
    (exec ("lsblk /dev/" ++ volumeName ++ " | grep /dev/" ++ volumeName ++ "p1") = .ok s3 →
      checkAndPartitionEBS exec =
        (["lsblk -o NAME,SIZE,TYPE,MOUNTPOINT", "lsblk | grep " ++ volumeName,
            "lsblk /dev/" ++ volumeName ++ " | grep /dev/" ++ volumeName ++ "p1"],
          none)) ∧
    (exec ("lsblk /dev/" ++ volumeName ++ " | grep /dev/" ++ volumeName ++ "p1") = .error e3 →
      exec ("echo ',,,;' | sfdisk /dev/" ++ volumeName) = .error e4 →
      checkAndPartitionEBS exec =
        (["lsblk -o NAME,SIZE,TYPE,MOUNTPOINT", "lsblk | grep " ++ volumeName,
            "lsblk /dev/" ++ volumeName ++ " | grep /dev/" ++ volumeName ++ "p1",
            "echo ',,,;' | sfdisk /dev/" ++ volumeName],
          some ⟨"failed to partition EBS volume: " ++ e4.msg⟩)) ∧
    (exec ("lsblk /dev/" ++ volumeName ++ " | grep /dev/" ++ volumeName ++ "p1") = .error e3 →
      exec ("echo ',,,;' | sfdisk /dev/" ++ volumeName) = .ok s4 →
      exec ("mkfs.xfs /dev/" ++ volumeName ++ "p1") = .error e5 →
      checkAndPartitionEBS exec =
        (["lsblk -o NAME,SIZE,TYPE,MOUNTPOINT", "lsblk | grep " ++ volumeName,
            "lsblk /dev/" ++ volumeName ++ " | grep /dev/" ++ volumeName ++ "p1",
            "echo ',,,;' | sfdisk /dev/" ++ volumeName,
            "mkfs.xfs /dev/" ++ volumeName ++ "p1"],
          some ⟨"failed to make mkfs file structure: " ++ e5.msg⟩)) ∧
    (exec ("lsblk /dev/" ++ volumeName ++ " | grep /dev/" ++ volumeName ++ "p1") = .error e3 →
      exec ("echo ',,,;' | sfdisk /dev/" ++ volumeName) = .ok s4 →
      exec ("mkfs.xfs /dev/" ++ volumeName ++ "p1") = .ok s5 →
      exec ("mount /dev/" ++ volumeName ++ "p1 /mnt") = .error e6 →
      checkAndPartitionEBS exec =
        (["lsblk -o NAME,SIZE,TYPE,MOUNTPOINT", "lsblk | grep " ++ volumeName,
            "lsblk /dev/" ++ volumeName ++ " | grep /dev/" ++ volumeName ++ "p1",
            "echo ',,,;' | sfdisk /dev/" ++ volumeName,
            "mkfs.xfs /dev/" ++ volumeName ++ "p1",
            "mount /dev/" ++ volumeName ++ "p1 /mnt"],
          some ⟨"failed to mount /mnt on EBS volume: " ++ e6.msg⟩)) ∧
    (exec ("lsblk /dev/" ++ volumeName ++ " | grep /dev/" ++ volumeName ++ "p1") = .error e3 →
      exec ("echo ',,,;' | sfdisk /dev/" ++ volumeName) = .ok s4 →
      exec ("mkfs.xfs /dev/" ++ volumeName ++ "p1") = .ok s5 →
      exec ("mount /dev/" ++ volumeName ++ "p1 /mnt") = .ok s6 →
      exec "chmod 777 /mnt" = .error e7 →
      checkAndPartitionEBS exec =
        (["lsblk -o NAME,SIZE,TYPE,MOUNTPOINT", "lsblk | grep " ++ volumeName,
            "lsblk /dev/" ++ volumeName ++ " | grep /dev/" ++ volumeName ++ "p1",
            "echo ',,,;' | sfdisk /dev/" ++ volumeName,
            "mkfs.xfs /dev/" ++ volumeName ++ "p1",
            "mount /dev/" ++ volumeName ++ "p1 /mnt", "chmod 777 /mnt"],
          some ⟨"failed to change permissions on /mnt: " ++ e7.msg⟩)) ∧
    (exec ("lsblk /dev/" ++ volumeName ++ " | grep /dev/" ++ volumeName ++ "p1") = .error e3 →
      exec ("echo ',,,;' | sfdisk /dev/" ++ volumeName) = .ok s4 →
      exec ("mkfs.xfs /dev/" ++ volumeName ++ "p1") = .ok s5 →
      exec ("mount /dev/" ++ volumeName ++ "p1 /mnt") = .ok s6 →
      exec "chmod 777 /mnt" = .ok s7 →
      checkAndPartitionEBS exec =
        (["lsblk -o NAME,SIZE,TYPE,MOUNTPOINT", "lsblk | grep " ++ volumeName,
            "lsblk /dev/" ++ volumeName ++ " | grep /dev/" ++ volumeName ++ "p1",
            "echo ',,,;' | sfdisk /dev/" ++ volumeName,
            "mkfs.xfs /dev/" ++ volumeName ++ "p1",
            "mount /dev/" ++ volumeName ++ "p1 /mnt", "chmod 777 /mnt"],
          none)) := by
  refine ⟨?_, ?_, ?_, ?_, ?_, ?_⟩
  · intro g3
    simp [checkAndPartitionEBS, h1, h2, h3, g3]
  · intro g3 g4
    simp [checkAndPartitionEBS, h1, h2, h3, g3, g4]
  · intro g3 g4 g5
    simp [checkAndPartitionEBS, h1, h2, h3, g3, g4, g5]
  · intro g3 g4 g5 g6
    simp [checkAndPartitionEBS, h1, h2, h3, g3, g4, g5, g6]
  · intro g3 g4 g5 g6 g7
    simp [checkAndPartitionEBS, h1, h2, h3, g3, g4, g5, g6, g7]
  · intro g3 g4 g5 g6 g7
    simp [checkAndPartitionEBS, h1, h2, h3, g3, g4, g5, g6, g7]

/-- A channel on which the device listing reports one disk volume and every
other command, including the partition probe, succeeds. -/
def execProbeFound : String → Except GoErr String := fun cmd =>
  if cmd = "lsblk -o NAME,SIZE,TYPE,MOUNTPOINT" then .ok "nvme1n1 100G disk" else .ok ""

theorem checkAndPartitionEBS_probe_short_circuit_witness :
    checkAndPartitionEBS execProbeFound =
      (["lsblk -o NAME,SIZE,TYPE,MOUNTPOINT", "lsblk | grep nvme1n1",
          "lsblk /dev/nvme1n1 | grep /dev/nvme1n1p1"], none) := by
  have h := checkAndPartitionEBS_probe_short_circuit execProbeFound
    "nvme1n1 100G disk" "" "nvme1n1" ⟨""⟩ ⟨""⟩ ⟨""⟩ ⟨""⟩ ⟨""⟩ "" "" "" "" ""
    rfl rfl rfl
  exact h.1 rfl

/-- C10: between selecting the volume name and probing for its partition, the
sequencer issues the extra volume-existence check `lsblk | grep <name>`; if
that command fails the whole operation aborts with the distinct wrapped
"failed to check for EBS volume" error before any partitioning command is
issued. -/
theorem checkAndPartitionEBS_volume_check_aborts
    (exec : String → Except GoErr String) (out volumeName : String) (e : GoErr)
    (h1 : exec "lsblk -o NAME,SIZE,TYPE,MOUNTPOINT" = .ok out)
    (h2 : ExtractLastVolumeName out = .ok volumeName)
    (h3 : exec ("lsblk | grep " ++ volumeName) = .error e) :
    checkAndPartitionEBS exec =
      (["lsblk -o NAME,SIZE,TYPE,MOUNTPOINT", "lsblk | grep " ++ volumeName],
        some ⟨"failed to check for EBS volume: " ++ e.msg⟩) := by
  simp [checkAndPartitionEBS, h1, h2, h3]

/-- A channel whose device listing succeeds but on which the volume-existence
check (and everything after it) fails. -/
def execVolumeCheckFails : String → Except GoErr String := fun cmd =>
  if cmd = "lsblk -o NAME,SIZE,TYPE,MOUNTPOINT" then .ok "nvme1n1 100G disk"
  else .error ⟨"exit status 1"⟩

theorem checkAndPartitionEBS_volume_check_aborts_witness :
    checkAndPartitionEBS execVolumeCheckFails =
      (["lsblk -o NAME,SIZE,TYPE,MOUNTPOINT", "lsblk | grep nvme1n1"],
        some ⟨"failed to check for EBS volume: exit status 1"⟩) := by
  have h := checkAndPartitionEBS_volume_check_aborts execVolumeCheckFails
    "nvme1n1 100G disk" "nvme1n1" ⟨"exit status 1"⟩ rfl rfl rfl
  exact h

end Autobench
